import Mathlib

set_option maxHeartbeats 1000000

namespace Hikari

/-! Shallow embedding of the hikari gateway session engine and of
`GuildBuilder.add_role` from `hikari/impl/special_endpoints.py`.

The gateway implementation file `hikari/net/gateway.py` is not present
under `src/` (only its test suite `src/tests/net/test_gateway.py` is), so
the gateway definitions below are modelled from the specification, with
the tests cited as the observable contract.  `special_endpoints.py` is
present and is embedded directly. -/

mutual

/-- A JSON value, as exchanged over the gateway WebSocket.  Numbers are
modelled as integers (every number the engine reads or writes is an
integer); strings carry no escape sequences (no payload in this
development needs any).  Arrays and objects use the mutual list types so
that all functions below are structurally recursive and computable. -/
inductive Json where
  | null : Json
  | bool (b : Bool) : Json
  | num (n : Int) : Json
  | str (s : String) : Json
  | arr (xs : JsonList) : Json
  | obj (fields : JsonFields) : Json

/-- A list of JSON values (the payload of `Json.arr`). -/
inductive JsonList where
  | nil : JsonList
  | cons (hd : Json) (tl : JsonList) : JsonList

/-- An ordered association list of string keys to JSON values (the
payload of `Json.obj`); order models Python dict insertion order. -/
inductive JsonFields where
  | nil : JsonFields
  | cons (key : String) (val : Json) (tl : JsonFields) : JsonFields

end

/-- Build a `JsonList` from a Lean list. -/
def JsonList.ofList : List Json → JsonList
  | [] => .nil
  | x :: xs => .cons x (JsonList.ofList xs)

/-- Build a `JsonFields` from a Lean list of key/value pairs. -/
def JsonFields.ofList : List (String × Json) → JsonFields
  | [] => .nil
  | (k, v) :: xs => .cons k v (JsonFields.ofList xs)

/-- Build a JSON object from a Lean list of key/value pairs. -/
def Json.mkObj (fs : List (String × Json)) : Json :=
  .obj (JsonFields.ofList fs)

mutual

/-- Compact serialization of a JSON value, matching the Python
`json.dumps` default separators `", "` and `": "`, which is the exact
form the repository tests assert (for example the heartbeat frame
serializes as `\x7b"op": 1, "d": null\x7d`). -/
def Json.serialize : Json → String
  | .null => "null"
  | .bool true => "true"
  | .bool false => "false"
  | .num n => toString n
  | .str s => "\"" ++ s ++ "\""
  | .arr xs => "[" ++ JsonList.serializeItems xs ++ "]"
  | .obj fs => "\x7b" ++ JsonFields.serializeItems fs ++ "\x7d"

/-- Comma-joined serialization of the items of a JSON array. -/
def JsonList.serializeItems : JsonList → String
  | .nil => ""
  | .cons hd .nil => Json.serialize hd
  | .cons hd (.cons h t) => Json.serialize hd ++ ", " ++ JsonList.serializeItems (.cons h t)

/-- Comma-joined serialization of the fields of a JSON object. -/
def JsonFields.serializeItems : JsonFields → String
  | .nil => ""
  | .cons k v .nil => "\"" ++ k ++ "\": " ++ Json.serialize v
  | .cons k v (.cons k2 v2 t) =>
      "\"" ++ k ++ "\": " ++ Json.serialize v ++ ", " ++
        JsonFields.serializeItems (.cons k2 v2 t)

end

/-- Look a key up in an association list of JSON fields, returning the
value of the first matching key (Python `dict.get` semantics on an
insertion-ordered dict). -/
def JsonFields.lookup : JsonFields → String → Option Json
  | .nil, _ => none
  | .cons k v tl, key => if k = key then some v else JsonFields.lookup tl key

/-- Look a key up in a JSON object (Python `payload.get(key)`); `none`
for a missing key or for a non-object. -/
def Json.lookup : Json → String → Option Json
  | .obj fs, k => fs.lookup k
  | _, _ => none

/-- Is a JSON value a string?  Used to state the wire convention that ID
fields are transmitted as base-10 strings. -/
def Json.isStr : Json → Bool
  | .str _ => true
  | _ => false

/-! ## Session state and engine configuration -/

/-- Modelled from the spec: the SessionState record of §3 owned by the
engine (`hikari/net/gateway.py`, absent from `src/`): opaque
`session_id` (the tests store both integers and strings, so it is held
as a JSON value), the last-seen sequence number `seq`, and the server
`trace`. -/
structure SessionState where
  session_id : Option Json
  seq : Option Int
  trace : List String

/-- Modelled from the spec: the engine construction record of §6
(token, shard coordinates, `large_threshold`, `incognito`, optional
initial presence) together with the three process properties the
IDENTIFY payload reports (platform/os, library version, runtime
version). -/
structure GatewayConfig where
  token : String
  large_threshold : Int
  incognito : Bool
  shard_id : Option Int
  shard_count : Int
  initial_presence : Option Json
  os : String
  browser : String
  device : String

/-! ## Outbound command payloads (§4.5, §8 scenarios 3 to 6) -/

/-- Modelled from the spec: the RESUME command of §4.4,
`\x7bop:6, d:\x7btoken, session_id, seq\x7d\x7d`.  Scenario 3 of §8 shows
`session_id` transmitted verbatim as stored (the scenario expects the
integer `1234321`, not a string); `seq` likewise. -/
def sendResume (cfg : GatewayConfig) (st : SessionState) : Json :=
  Json.mkObj [("op", .num 6), ("d", Json.mkObj
    [("token", .str cfg.token),
     ("session_id", st.session_id.getD .null),
     ("seq", match st.seq with | some n => .num n | none => .null)])]

/-- Modelled from the spec: the IDENTIFY properties object of §4.4;
literal platform identifiers normally, the three verbatim strings
`"os"`, `"browser"`, `"device"` in incognito mode. -/
def identifyProperties (cfg : GatewayConfig) : Json :=
  if cfg.incognito then
    Json.mkObj [("$os", .str "os"), ("$browser", .str "browser"), ("$device", .str "device")]
  else
    Json.mkObj [("$os", .str cfg.os), ("$browser", .str cfg.browser), ("$device", .str cfg.device)]

/-- Modelled from the spec: the IDENTIFY command of §4.4,
`\x7bop:2, d:\x7btoken, compress:false, large_threshold, properties,
shard?, status?\x7d\x7d`; the shard pair is included only when a shard id
is configured, and the initial presence only when supplied (scenarios 4
and 5 of §8, and the sharding/status tests). -/
def sendIdentify (cfg : GatewayConfig) : Json :=
  Json.mkObj [("op", .num 2), ("d", Json.obj (JsonFields.ofList
    ([("token", .str cfg.token),
      ("compress", .bool false),
      ("large_threshold", .num cfg.large_threshold),
      ("properties", identifyProperties cfg)]
     ++ (match cfg.shard_id with
         | some sid => [("shard", .arr (.cons (.num sid) (.cons (.num cfg.shard_count) .nil)))]
         | none => [])
     ++ (match cfg.initial_presence with
         | some p => [("status", p)]
         | none => []))))]

/-- Modelled from the spec: the REQUEST_GUILD_MEMBERS command of §4.5,
`\x7bop:8, d:\x7bguild_id: str(id), query, limit\x7d\x7d`; the guild id is
stringified in base 10. -/
def requestGuildMembers (guild_id : Nat) (query : String) (limit : Int) : Json :=
  Json.mkObj [("op", .num 8), ("d", Json.mkObj
    [("guild_id", .str (toString guild_id)),
     ("query", .str query),
     ("limit", .num limit)])]

/-- Modelled from the spec: the PRESENCE_UPDATE command of §4.5,
`\x7bop:3, d:\x7bidle, game, status, afk\x7d\x7d`. -/
def updateStatus (idle_since : Int) (game : Json) (status : String) (afk : Bool) : Json :=
  Json.mkObj [("op", .num 3), ("d", Json.mkObj
    [("idle", .num idle_since), ("game", game), ("status", .str status), ("afk", .bool afk)])]

/-- Modelled from the spec: the VOICE_STATE_UPDATE command of §4.5,
`\x7bop:4, d:\x7bguild_id: str(id), channel_id: str(id)|null, self_mute,
self_deaf\x7d\x7d`; both ids are stringified in base 10, a nil channel is
sent as JSON null. -/
def updateVoiceState (guild_id : Nat) (channel_id : Option Nat) (self_mute self_deaf : Bool) : Json :=
  Json.mkObj [("op", .num 4), ("d", Json.mkObj
    [("guild_id", .str (toString guild_id)),
     ("channel_id", match channel_id with | some c => .str (toString c) | none => .null),
     ("self_mute", .bool self_mute),
     ("self_deaf", .bool self_deaf)])]

/-- Modelled from the spec: the heartbeat command of §4.3,
`\x7bop:1, d: last_seq_or_null\x7d`. -/
def sendHeartbeat (seq : Option Int) : Json :=
  Json.mkObj [("op", .num 1), ("d", match seq with | some n => .num n | none => .null)]

/-- Modelled from the spec: the heartbeat ACK command `\x7bop:11\x7d`
emitted in response to a server HEARTBEAT request (§4.4). -/
def sendAck : Json :=
  Json.mkObj [("op", .num 11)]

/-! ## Restart signals and close-code classification -/

/-- Modelled from the spec: the two sentinel signals the FSM event loop
raises to unwind back to the reconnect driver (§4.4, §9):
`RestartConnection` is restart-with-reidentify, `ResumeConnection` is
restart-with-resume; each carries the close code and reason. -/
inductive RunSignal where
  | RestartConnection (code : Nat) (reason : String)
  | ResumeConnection (code : Nat) (reason : String)
  deriving Repr, DecidableEq

/-- Is a raised signal the restart-with-reidentify sentinel? -/
def RunSignal.isRestart : RunSignal → Bool
  | .RestartConnection _ _ => true
  | .ResumeConnection _ _ => false

/-- Is a raised signal the restart-with-resume sentinel? -/
def RunSignal.isResume : RunSignal → Bool
  | .RestartConnection _ _ => false
  | .ResumeConnection _ _ => true

/-- Modelled from the spec: the never-reconnect close-code set of §4.4
(authentication failed, invalid shard, sharding required, disallowed
intents), numbered per the platform close-code registry. -/
def neverReconnectCodes : List Nat :=
  [4004, 4010, 4011, 4014]

/-- Modelled from the spec: the client-chosen close code attached to the
signal raised on an INVALID_SESSION frame.  The spec does not pin its
value; the claims only need that it is not in the never-reconnect set. -/
def invalidSessionCloseCode : Nat := 4000

/-- Modelled from the spec: the client-chosen close code attached to the
signal raised on a RECONNECT frame; not in the never-reconnect set. -/
def reconnectCloseCode : Nat := 4000

/-- Modelled from the spec: the client-chosen close code attached to the
reidentify signal raised on a protocol violation (HELLO outside the
handshake). -/
def protocolViolationCloseCode : Nat := 4002

/-! ## The event loop step (§4.4, transitions in the Running state) -/

/-- The observable outcome of processing one inbound frame in the
Running state: the session state afterwards, the commands written to the
socket, the events forwarded to the event sink, and the signal raised
(if any). -/
structure StepOut where
  state : SessionState
  sent : List Json
  events : List (String × Json)
  signal : Option RunSignal

/-- The sequence field of an event frame when it is usable: `some n`
exactly when the key `"s"` is present and holds a number; absent keys
and JSON null both yield `none` (Python `payload.get("s") is None`
does not distinguish them). -/
def getSeq (payload : Json) : Option Int :=
  match payload.lookup "s" with
  | some (.num n) => some n
  | _ => none

/-- Extract a trace list (a JSON array of strings) into a Lean list,
keeping only string entries. -/
def traceOf : Option Json → List String
  | some (.arr xs) => traceStrings xs
  | _ => []
where
  /-- String entries of a JSON list, in order. -/
  traceStrings : JsonList → List String
    | .nil => []
    | .cons (.str s) tl => s :: traceStrings tl
    | .cons _ tl => traceStrings tl

/-- Modelled from the spec: the READY handler of §4.4 records the
session id and the trace carried by the event data (the sequence number
was already recorded from the frame itself). -/
def handleReady (st : SessionState) (d : Json) : SessionState :=
  { st with
    session_id := d.lookup "session_id"
    trace := traceOf (d.lookup "_trace") }

/-- Modelled from the spec: the RESUMED handler records the trace
carried by the event data. -/
def handleResumed (st : SessionState) (d : Json) : SessionState :=
  { st with trace := traceOf (d.lookup "_trace") }

/-- Modelled from the spec: processing of one inbound frame in the
Running state, §4.4 (the body of `_process_one_event` in
`hikari/net/gateway.py`, absent from `src/`):
op 0 updates `seq` when the `s` field is present and non-null, then
routes READY and RESUMED to their handlers and forwards any other event
to the sink; op 1 answers with an ACK; op 7 raises the
restart-with-reidentify signal (the behaviour §4.4 states and
`test_process_events_on_reconnect_opcode` asserts); op 9 raises
restart-with-resume when `d` is true and restart-with-reidentify when
`d` is false; op 10 outside the handshake is a protocol violation
(reidentify); op 11 is forwarded to the heartbeat controller; unknown
opcodes are ignored. -/
def processOneEvent (st : SessionState) (payload : Json) : StepOut :=
  match payload.lookup "op" with
  | some (.num 0) =>
    let st1 : SessionState :=
      { st with seq := match getSeq payload with | some n => some n | none => st.seq }
    let d := (payload.lookup "d").getD .null
    (match payload.lookup "t" with
     | some (.str "READY") => ⟨handleReady st1 d, [], [], none⟩
     | some (.str "RESUMED") => ⟨handleResumed st1 d, [], [], none⟩
     | some (.str t) => ⟨st1, [], [(t, d)], none⟩
     | _ => ⟨st1, [], [], none⟩)
  | some (.num 1) => ⟨st, [sendAck], [], none⟩
  | some (.num 7) =>
    ⟨st, [], [], some (.RestartConnection reconnectCloseCode "The gateway requested a reconnect")⟩
  | some (.num 9) =>
    (match payload.lookup "d" with
     | some (.bool true) =>
       ⟨st, [], [], some (.ResumeConnection invalidSessionCloseCode "The session is resumable")⟩
     | _ =>
       ⟨st, [], [], some (.RestartConnection invalidSessionCloseCode "The session is not resumable")⟩)
  | some (.num 10) =>
    ⟨st, [], [], some (.RestartConnection protocolViolationCloseCode "Hello out of sequence")⟩
  | some (.num 11) => ⟨st, [], [], none⟩
  | _ => ⟨st, [], [], none⟩

/-! ## The outer run loop (§4.5, §9; `run_once` in the tests) -/

/-- Modelled from the spec: the resume-vs-identify decision of §3/§4.4:
a connection attempt resumes exactly when both the stored session id and
the stored sequence number are non-nil; otherwise it identifies.  This
is the branch `run_once` takes right after HELLO. -/
def handshakeSends (cfg : GatewayConfig) (st : SessionState) : List Json :=
  if st.session_id.isSome && st.seq.isSome then [sendResume cfg st] else [sendIdentify cfg]

/-- Modelled from the spec: how the reconnect driver (`run_once`)
handles a signal unwound from the event loop (§4.4, §7, §9, and the
observable contract of `test_run_once_RestartConnection`,
`test_run_once_ResumeConnection` and the two never-reconnect tests):
a code in the never-reconnect set is fatal (`none`, a RuntimeError);
otherwise restart-with-reidentify clears `seq`, `session_id` and the
trace before the next attempt, while restart-with-resume preserves the
whole state. -/
def handleSignal (st : SessionState) : RunSignal → Option SessionState
  | .RestartConnection code _ =>
    if code ∈ neverReconnectCodes then none
    else some { st with seq := none, session_id := none, trace := [] }
  | .ResumeConnection code _ =>
    if code ∈ neverReconnectCodes then none else some st

/-! ## RateLimiter (§4.2): token bucket over a sliding window -/

/-- Modelled from the spec: the state of the outbound command rate
limiter of §4.2 (`hikari/net/gateway.py`, absent from `src/`): capacity
N per window W, the completion times of the commands granted so far, and
the observable saturated flag that becomes set once at least one acquire
has suspended (the `_full_event` the tests wait on).  Time is a discrete
monotonic clock. -/
structure RateLimiter where
  capacity : Nat
  window : Nat
  completions : List Nat
  saturated : Bool

/-- The completion times still occupying the window at time `t`: a
command completed at time `c` holds its token during `[c, c + W)`. -/
def activeAt (window : Nat) (completions : List Nat) (t : Nat) : List Nat :=
  completions.filter (fun c => decide (t < c + window))

/-- Modelled from the spec: one acquire on the rate limiter, requested
at time `t` (§4.2): it completes immediately when fewer than N tokens
are live in the window; otherwise the caller suspends (FIFO behind the
already granted commands) and completes when the N-th most recent live
token leaves the window, which also sets the saturated flag.  Returns
`((completionTime, suspended), newState)`. -/
def acquireAt (rl : RateLimiter) (t : Nat) : (Nat × Bool) × RateLimiter :=
  let act := activeAt rl.window rl.completions t
  if act.length < rl.capacity then
    ((t, false), { rl with completions := rl.completions ++ [t] })
  else
    let free := ((act.reverse.get? (rl.capacity - 1)).getD t) + rl.window
    ((free, true), { rl with completions := rl.completions ++ [free], saturated := true })

/-- Run a FIFO queue of acquires through the limiter, in request order;
returns the per-acquire outcomes and the final limiter state. -/
def acquireSeq (rl : RateLimiter) : List Nat → List (Nat × Bool) × RateLimiter
  | [] => ([], rl)
  | t :: ts =>
    let r := acquireAt rl t
    let rest := acquireSeq r.2 ts
    (r.1 :: rest.1, rest.2)

/-- A fresh limiter with capacity N per window W: no live tokens, the
saturated flag clear. -/
def freshLimiter (N W : Nat) : RateLimiter :=
  ⟨N, W, [], false⟩

/-! ## FrameCodec buffer policy and the oversize report (§4.1) -/

/-- A receive buffer with an allocation identity: `ident` stands for the
Python object identity the tests compare with `is`, `data` for the bytes
accumulated since the last decoded frame. -/
structure Buffer where
  ident : Nat
  data : List Nat

/-- Modelled from the spec: the fields of the FrameCodec relevant to the
buffer policy of §4.1: the receive buffer, the threshold
`max_persistent_buffer_size`, a counter supplying fresh allocation
identities, and the streaming inflator context (opaque here; it is never
reset between frames). -/
structure FrameCodec where
  inBuffer : Buffer
  max_persistent_buffer_size : Nat
  nextAlloc : Nat
  inflator : Nat

/-- Modelled from the spec: the step `_recv_json` takes right after a
frame is successfully decoded (§4.1): when the accumulated buffer size
exceeds `max_persistent_buffer_size` the buffer is discarded and a fresh
small one is allocated; otherwise the same buffer object is cleared in
place.  Nothing else in the codec changes, and the inflator keeps its
streaming context. -/
def finalizeBuffer (c : FrameCodec) : FrameCodec :=
  if c.inBuffer.data.length > c.max_persistent_buffer_size then
    { c with inBuffer := ⟨c.nextAlloc, []⟩, nextAlloc := c.nextAlloc + 1 }
  else
    { c with inBuffer := ⟨c.inBuffer.ident, []⟩ }

/-- Modelled from the spec: the per-frame payload limit of §4.1
(4096 bytes). -/
def maxPayloadSize : Nat := 4096

/-- Modelled from the spec: `_send_json` / `encode_and_send` (§4.1):
the command is serialized compactly; when the serialized form exceeds
the 4096-byte limit the oversize handler is invoked (the condition is
reported), and the payload is written to the socket regardless — the
server enforces the limit authoritatively.  Returns
`(oversizeReported, wireFrame)`. -/
def sendJson (payload : Json) : Bool × String :=
  let raw := payload.serialize
  (decide (raw.length > maxPayloadSize), raw)

/-! ## GuildBuilder.add_role (src/hikari/impl/special_endpoints.py) -/

/-- Overwrite the value of an existing key, keeping its position, or
append the key at the end: Python dict item assignment on an
insertion-ordered dict. -/
def JsonFields.set : JsonFields → String → Json → JsonFields
  | .nil, k, v => .cons k v .nil
  | .cons k0 v0 tl, k, v =>
    if k0 = k then .cons k0 v tl else .cons k0 v0 (JsonFields.set tl k v)

/-- Embedding of `data_binding.JSONObjectBuilder.put`: store the value
under the key unless the value is the UNDEFINED sentinel (modelled as
`none`), in which case the builder is left untouched. -/
def put (fs : JsonFields) (k : String) (v : Option Json) : JsonFields :=
  match v with
  | none => fs
  | some j => fs.set k j

/-- Modelled from the spec: `undefined.count` from
`hikari/utilities/undefined.py` (absent from `src/`) counts how many of
its arguments are the UNDEFINED sentinel; each list entry here is the
`isNone` flag of one argument.  The guard in `add_role` raises exactly
when this count over `(color, colour)` is zero, which matches the note
in §9 that supplying both is already rejected by validation before the
payload lines run. -/
def undefined_count (undefFlags : List Bool) : Nat :=
  (undefFlags.filter id).length

/-- The `GuildBuilder` fields `add_role` touches: the accumulated role
payloads and the counter feeding `_new_snowflake` (the generated id is
modelled by the counter; its timestamp component is irrelevant to the
claims). -/
structure GuildBuilder where
  name : String
  roles : List Json
  channels : List Json
  counter : Nat

/-- The two exception kinds `add_role` raises. -/
inductive AddRoleError where
  | typeError (msg : String)
  | valueError (msg : String)
  deriving Repr, DecidableEq

/-- Embedding of `GuildBuilder.add_role` from
`src/hikari/impl/special_endpoints.py` (lines 232 to 266): reject when
both `color` and `colour` are supplied; for the first role require the
name `"@everyone"` and no appearance options; otherwise build the role
payload — note the source writes `colour` over `color` under the single
key `"color"` — append it and return the new id. -/
def add_role (b : GuildBuilder) (name : String)
    (color colour : Option Int) (hoisted mentionable : Option Bool)
    (permissions : Option Int) (position : Option Int) :
    Except AddRoleError (GuildBuilder × Nat) :=
  if undefined_count [color.isNone, colour.isNone] = 0 then
    .error (.typeError "Cannot specify 'color' and 'colour' together.")
  else if b.roles.length = 0 ∧ name ≠ "@everyone" then
    .error (.valueError "First role must always be the '@everyone' role")
  else if b.roles.length = 0 ∧
      undefined_count [color.isNone, colour.isNone, hoisted.isNone,
        mentionable.isNone, position.isNone] ≠ 5 then
    .error (.valueError
      "Cannot pass 'color', 'colour', 'hoisted', 'mentionable' nor 'position' to the '@everyone' role.")
  else
    let snowflake_id := b.counter
    let payload := put (put .nil "id" (some (.str (toString snowflake_id)))) "name" (some (.str name))
    let payload := put payload "color" (color.map Json.num)
    let payload := put payload "color" (colour.map Json.num)
    let payload := put payload "hoisted" (hoisted.map Json.bool)
    let payload := put payload "mentionable" (mentionable.map Json.bool)
    let payload := put payload "permissions" (permissions.map Json.num)
    let payload := put payload "position" (position.map Json.num)
    .ok ({ b with roles := b.roles ++ [Json.obj payload], counter := b.counter + 1 }, snowflake_id)

/-- The builder state after an `add_role` call: unchanged when the call
raised (Python exceptions unwind before any mutation in `add_role`). -/
def applyAddRole (b : GuildBuilder) (name : String)
    (color colour : Option Int) (hoisted mentionable : Option Bool)
    (permissions : Option Int) (position : Option Int) : GuildBuilder :=
  match add_role b name color colour hoisted mentionable permissions position with
  | .ok r => r.1
  | .error _ => b

/-! ## Shared concrete inputs for witnesses -/

/-- A concrete engine configuration matching the one the tests build. -/
def sampleConfig : GatewayConfig :=
  { token := "1234", large_threshold := 69, incognito := false,
    shard_id := none, shard_count := 1, initial_presence := none,
    os := "leenuks", browser := "vx.y.z", device := "python3" }

/-- The `d` field of a payload (null when absent), for stating facts
about the data object of an outbound command. -/
def dField (j : Json) : Json :=
  (j.lookup "d").getD .null

/-- A concrete session state with both resume fields set, as in
`test_send_resume` (an integer session id and sequence 69420). -/
def sampleResumeState : SessionState :=
  { session_id := some (.num 1234321), seq := some 69420, trace := [] }

/-- The stored sequence numbers after each frame of a run of the event
loop, in processing order. -/
def seqStates (st : SessionState) : List Json → List (Option Int)
  | [] => []
  | p :: ps =>
    (processOneEvent st p).state.seq :: seqStates (processOneEvent st p).state ps

/-- Order on stored sequence values: a nil value precedes anything, a
stored number never becomes nil, and stored numbers must not decrease. -/
def optLE : Option Int → Option Int → Prop
  | none, _ => True
  | some _, none => False
  | some a, some b => a ≤ b

/-- A 5000-character string, for the oversize witness. -/
def bigString : String :=
  String.mk (List.replicate 5000 'a')

/-- The oversized command of the oversize witness: its serialization is
5009 bytes long. -/
def bigPayload : Json :=
  Json.mkObj [("d", .str bigString)]

/-- The completion times of a burst of `i` commands requested together
at time 0 under capacity N and window W: command `j` completes at
`(j / N) * W` (the first N at once, the next N a window later, and so
on). -/
def burstComps (N W i : Nat) : List Nat :=
  (List.range i).map (fun j => (j / N) * W)

/-! ## Claims -/

/-- C1: for every connection attempt started by the run loop, if the
stored `session_id` and `seq` are both non-nil when the attempt begins
the engine sends RESUME (opcode 6) and not IDENTIFY; otherwise it sends
IDENTIFY (opcode 2) and not RESUME. -/
theorem c1_resume_gating (cfg : GatewayConfig) (st : SessionState) :
    (st.session_id ≠ none ∧ st.seq ≠ none →
      handshakeSends cfg st = [sendResume cfg st])
    ∧ (st.session_id = none ∨ st.seq = none →
      handshakeSends cfg st = [sendIdentify cfg])
    ∧ (sendResume cfg st).lookup "op" = some (.num 6)
    ∧ (sendIdentify cfg).lookup "op" = some (.num 2)
    ∧ (sendResume cfg st).lookup "op" ≠ (sendIdentify cfg).lookup "op" := by
  refine ⟨?_, ?_, rfl, rfl, ?_⟩
  · rintro ⟨h1, h2⟩
    simp [handshakeSends, Option.isSome_iff_ne_none, h1, h2]
  · rintro (h | h) <;> simp [handshakeSends, h]
  · intro h
    rw [show (sendResume cfg st).lookup "op" = some (.num 6) from rfl,
        show (sendIdentify cfg).lookup "op" = some (.num 2) from rfl] at h
    simp at h

/-- C1 witness: with session id 1234321 and sequence 69420 stored, the
attempt sends exactly the RESUME command. -/
theorem c1_resume_gating_witness :
    handshakeSends sampleConfig sampleResumeState = [sendResume sampleConfig sampleResumeState] :=
  (c1_resume_gating sampleConfig sampleResumeState).1 ⟨by simp [sampleResumeState], by simp [sampleResumeState]⟩

/-- C3: an INVALID_SESSION frame (opcode 9) processed while Running
raises restart-with-resume when `d` is true, and the run loop then
preserves the session state; it raises restart-with-reidentify when `d`
is false, and the run loop then clears `session_id` and `seq`, so the
next attempt identifies. -/
theorem c3_invalid_session (cfg : GatewayConfig) (st : SessionState) (p : Json)
    (hop : p.lookup "op" = some (.num 9)) :
    (p.lookup "d" = some (.bool true) →
      (processOneEvent st p).signal
          = some (.ResumeConnection invalidSessionCloseCode "The session is resumable")
      ∧ (processOneEvent st p).state = st
      ∧ handleSignal st (.ResumeConnection invalidSessionCloseCode "The session is resumable")
          = some st)
    ∧ (p.lookup "d" = some (.bool false) →
      (processOneEvent st p).signal
          = some (.RestartConnection invalidSessionCloseCode "The session is not resumable")
      ∧ handleSignal st (.RestartConnection invalidSessionCloseCode "The session is not resumable")
          = some ⟨none, none, []⟩
      ∧ handshakeSends cfg (⟨none, none, []⟩ : SessionState) = [sendIdentify cfg]) := by
  constructor
  · intro hd
    refine ⟨?_, ?_, ?_⟩
    · simp [processOneEvent, hop, hd]
    · simp [processOneEvent, hop, hd]
    · simp [handleSignal, neverReconnectCodes, invalidSessionCloseCode]
  · intro hd
    refine ⟨?_, ?_, ?_⟩
    · simp [processOneEvent, hop, hd]
    · simp [handleSignal, neverReconnectCodes, invalidSessionCloseCode]
    · simp [handshakeSends]

/-- C3 witness: the two concrete INVALID_SESSION frames of the tests,
`\x7bop:9, d:true\x7d` and `\x7bop:9, d:false\x7d`. -/
theorem c3_invalid_session_witness :
    ((processOneEvent sampleResumeState (Json.mkObj [("op", .num 9), ("d", .bool true)])).signal
        = some (.ResumeConnection invalidSessionCloseCode "The session is resumable"))
    ∧ ((processOneEvent sampleResumeState (Json.mkObj [("op", .num 9), ("d", .bool false)])).signal
        = some (.RestartConnection invalidSessionCloseCode "The session is not resumable")) :=
  ⟨((c3_invalid_session sampleConfig sampleResumeState
      (Json.mkObj [("op", .num 9), ("d", .bool true)]) rfl).1 rfl).1,
   ((c3_invalid_session sampleConfig sampleResumeState
      (Json.mkObj [("op", .num 9), ("d", .bool false)]) rfl).2 rfl).1⟩

/-- C4 counterexample: at the concrete RECONNECT frame `\x7bop:7\x7d` the
engine raises the restart-with-reidentify signal, not the
restart-with-resume signal the claim (and the §6 opcode table) state;
this is the behaviour §4.4 describes and
`test_process_events_on_reconnect_opcode` asserts (it expects
`RestartConnection`). -/
theorem c4_reconnect_counterexample :
    ((processOneEvent sampleResumeState (Json.mkObj [("op", .num 7), ("d", .null)])).signal.map
        RunSignal.isResume = some false)
    ∧ ((processOneEvent sampleResumeState (Json.mkObj [("op", .num 7), ("d", .null)])).signal.map
        RunSignal.isRestart = some true) :=
  ⟨rfl, rfl⟩

/-- C4 (amended): every RECONNECT frame (opcode 7) received in the
Running state raises the restart-with-reidentify signal
(`RestartConnection`), not the restart-with-resume signal. -/
theorem c4_reconnect_raises_reidentify (st : SessionState) (p : Json)
    (hop : p.lookup "op" = some (.num 7)) :
    (processOneEvent st p).signal
        = some (.RestartConnection reconnectCloseCode "The gateway requested a reconnect")
    ∧ ((processOneEvent st p).signal.map RunSignal.isResume = some false) := by
  constructor <;> simp [processOneEvent, hop, RunSignal.isResume]

/-- C4 witness: the concrete frame `\x7bop:7, d:\x7b\x7d\x7d` of the test. -/
theorem c4_reconnect_raises_reidentify_witness :
    (processOneEvent sampleResumeState (Json.mkObj [("op", .num 7), ("d", Json.mkObj [])])).signal
        = some (.RestartConnection reconnectCloseCode "The gateway requested a reconnect") :=
  (c4_reconnect_raises_reidentify sampleResumeState
    (Json.mkObj [("op", .num 7), ("d", Json.mkObj [])]) rfl).1

/-- C5 counterexample: the RESUME command built from the state of
`test_send_resume` (token "1234", session id 1234321, seq 69420)
carries `session_id` as the number 1234321, not as a base-10 string —
so not every ID field of every outbound command is stringified (§8
scenario 3 shows the same integer on the wire). -/
theorem c5_id_stringification_counterexample :
    (dField (sendResume sampleConfig sampleResumeState)).lookup "session_id"
        = some (.num 1234321)
    ∧ ((dField (sendResume sampleConfig sampleResumeState)).lookup "session_id").map Json.isStr
        = some false :=
  ⟨rfl, rfl⟩

/-- C5 (amended): the snowflake ID fields of the caller-facing commands
— `guild_id` in REQUEST_GUILD_MEMBERS, `guild_id` and `channel_id` in
VOICE_STATE_UPDATE — are base-10 strings regardless of the integer the
caller passed (a nil channel is sent as JSON null), while `session_id`
in RESUME is transmitted verbatim as stored, not stringified. -/
theorem c5_ids_are_strings (gid cid : Nat) (q : String) (lim : Int)
    (m d : Bool) (cfg : GatewayConfig) (st : SessionState) :
    (dField (requestGuildMembers gid q lim)).lookup "guild_id" = some (.str (toString gid))
    ∧ (dField (updateVoiceState gid (some cid) m d)).lookup "guild_id" = some (.str (toString gid))
    ∧ (dField (updateVoiceState gid (some cid) m d)).lookup "channel_id" = some (.str (toString cid))
    ∧ (dField (updateVoiceState gid none m d)).lookup "channel_id" = some .null
    ∧ (dField (sendResume cfg st)).lookup "session_id" = some (st.session_id.getD .null) :=
  ⟨rfl, rfl, rfl, rfl, rfl⟩

/-- C7: after a successfully decoded frame, the receive buffer keeps its
object identity (cleared in place) exactly when its accumulated size is
at most `max_persistent_buffer_size`, and is replaced by a freshly
allocated buffer when the size exceeds the threshold; the buffer is
empty afterwards and the other codec fields (threshold, inflator) are
untouched.  The hypothesis states that the fresh allocation is a new
object. -/
theorem c7_buffer_policy (c : FrameCodec) (h : c.inBuffer.ident ≠ c.nextAlloc) :
    ((finalizeBuffer c).inBuffer.ident = c.inBuffer.ident
        ↔ c.inBuffer.data.length ≤ c.max_persistent_buffer_size)
    ∧ (c.max_persistent_buffer_size < c.inBuffer.data.length →
        (finalizeBuffer c).inBuffer.ident = c.nextAlloc)
    ∧ (finalizeBuffer c).inBuffer.data = []
    ∧ (finalizeBuffer c).max_persistent_buffer_size = c.max_persistent_buffer_size
    ∧ (finalizeBuffer c).inflator = c.inflator := by
  unfold finalizeBuffer
  by_cases hs : c.inBuffer.data.length > c.max_persistent_buffer_size
  · rw [if_pos hs]
    refine ⟨?_, fun _ => rfl, rfl, rfl, rfl⟩
    simp only [show (⟨c.nextAlloc, []⟩ : Buffer).ident = c.nextAlloc from rfl]
    constructor
    · intro he; exact absurd he.symm h
    · intro hle; omega
  · rw [if_neg hs]
    exact ⟨by simpa using Nat.not_lt.mp hs, fun hlt => absurd hlt hs, rfl, rfl, rfl⟩

/-- C7 witness: a codec whose 3-byte buffer exceeds the 2-byte
threshold is replaced by the fresh allocation. -/
theorem c7_buffer_policy_witness :
    (⟨⟨0, [10, 11, 12]⟩, 2, 1, 7⟩ : FrameCodec).inBuffer.ident
        ≠ (⟨⟨0, [10, 11, 12]⟩, 2, 1, 7⟩ : FrameCodec).nextAlloc
    ∧ (finalizeBuffer ⟨⟨0, [10, 11, 12]⟩, 2, 1, 7⟩).inBuffer.ident
        = (⟨⟨0, [10, 11, 12]⟩, 2, 1, 7⟩ : FrameCodec).nextAlloc :=
  ⟨by decide, (c7_buffer_policy ⟨⟨0, [10, 11, 12]⟩, 2, 1, 7⟩ (by decide)).2.1 (by decide)⟩

/-- C8: a command whose compact serialization exceeds the 4096-byte
per-frame limit has the oversize condition reported, and the payload is
still written to the socket unchanged — the send is not rejected
locally. -/
theorem c8_oversize_reported_and_sent (p : Json)
    (h : maxPayloadSize < p.serialize.length) :
    (sendJson p).1 = true ∧ (sendJson p).2 = p.serialize := by
  refine ⟨?_, rfl⟩
  simp only [sendJson, gt_iff_lt, decide_eq_true_eq]
  exact h

/-- C8 witness: the 5009-byte payload is reported oversize and still
sent. -/
theorem c8_oversize_witness :
    maxPayloadSize < bigPayload.serialize.length
    ∧ (sendJson bigPayload).1 = true ∧ (sendJson bigPayload).2 = bigPayload.serialize :=
  have h : maxPayloadSize < bigPayload.serialize.length := by
    have hser : bigPayload.serialize
        = "\x7b" ++ ((("\"" ++ "d") ++ "\": ") ++ (("\"" ++ bigString) ++ "\"")) ++ "\x7d" := rfl
    have hbig : bigString.length = 5000 := by
      rw [show bigString.length = (List.replicate 5000 'a').length from rfl,
        List.length_replicate]
    rw [hser]
    simp only [String.length_append, hbig]
    norm_num [maxPayloadSize, String.length, String.data]
  ⟨h, (c8_oversize_reported_and_sent bigPayload h).1, (c8_oversize_reported_and_sent bigPayload h).2⟩

/-- C9: a call to `GuildBuilder.add_role` supplying both `color` and
`colour` is rejected with the TypeError before any payload is built, the
role list is unchanged, and consequently the later lines that write
`colour` over `color` under the single key `"color"` never execute with
both values defined: every successful call has at most one of the two
defined. -/
theorem c9_add_role_rejects_both_colors (b : GuildBuilder) (name : String)
    (c c' : Int) (hoisted mentionable : Option Bool) (perms pos : Option Int) :
    add_role b name (some c) (some c') hoisted mentionable perms pos
        = .error (.typeError "Cannot specify 'color' and 'colour' together.")
    ∧ applyAddRole b name (some c) (some c') hoisted mentionable perms pos = b
    ∧ (∀ (color colour : Option Int) (r : GuildBuilder × Nat),
        add_role b name color colour hoisted mentionable perms pos = .ok r →
        color = none ∨ colour = none) := by
  refine ⟨rfl, rfl, ?_⟩
  intro color colour r h
  match color, colour with
  | none, _ => exact Or.inl rfl
  | some _, none => exact Or.inr rfl
  | some x, some y => simp [add_role, undefined_count] at h

/-- C9 witness: the concrete call `add_role "Admins" (color := 1)
(colour := 2)` on a builder that already holds the everyone role is
rejected with the TypeError. -/
theorem c9_add_role_rejects_both_colors_witness :
    add_role ⟨"My Server!", [Json.mkObj [("name", .str "@everyone")]], [], 1⟩ "Admins"
        (some 1) (some 2) none none none none
      = .error (.typeError "Cannot specify 'color' and 'colour' together.") :=
  (c9_add_role_rejects_both_colors ⟨"My Server!", [Json.mkObj [("name", .str "@everyone")]], [], 1⟩
    "Admins" 1 2 none none none none).1

/-- C10: when the run loop catches restart-with-reidentify carrying a
close code outside the never-reconnect set it clears `seq`,
`session_id` and also resets the stored trace to the empty list; when it
catches restart-with-resume it leaves all three unchanged. -/
theorem c10_run_loop_signal_state (st : SessionState) (code : Nat) (reason : String)
    (h : code ∉ neverReconnectCodes) :
    handleSignal st (.RestartConnection code reason)
        = some (⟨none, none, []⟩ : SessionState)
    ∧ handleSignal st (.ResumeConnection code reason) = some st := by
  constructor <;> simp [handleSignal, h]

/-! ## C2: seq conditionality and monotonicity -/

/-- The order `optLE` is reflexive. -/
theorem optLE_refl (a : Option Int) : optLE a a := by
  cases a <;> simp [optLE]

/-- Processing one event frame (opcode 0) stores the frame's `s` field
when it is present and non-null and keeps the previous value otherwise,
whatever the event type routes to. -/
theorem processOneEvent_seq (st : SessionState) (p : Json)
    (hop : p.lookup "op" = some (.num 0)) :
    (processOneEvent st p).state.seq
      = (match getSeq p with | some n => some n | none => st.seq) := by
  simp only [processOneEvent, hop]
  split <;> simp [handleReady, handleResumed]

/-- Chained form of the amended monotonicity: if the initial stored
value followed by the sequence numbers the frames carry is
non-decreasing, then the stored value is non-decreasing along the run. -/
theorem seqStates_chain (ps : List Json) : ∀ (st : SessionState),
    (∀ q ∈ ps, q.lookup "op" = some (.num 0)) →
    List.Chain' (· ≤ ·) (st.seq.toList ++ ps.filterMap getSeq) →
    List.Chain' optLE (st.seq :: seqStates st ps) := by
  induction ps with
  | nil => intro st _ _; simp [seqStates]
  | cons p ps ih =>
    intro st hall hchain
    have hop : p.lookup "op" = some (.num 0) := hall p (List.mem_cons_self p ps)
    have hall' : ∀ q ∈ ps, q.lookup "op" = some (.num 0) :=
      fun q hq => hall q (List.mem_cons_of_mem p hq)
    have hseq := processOneEvent_seq st p hop
    simp only [seqStates]
    rcases hgs : getSeq p with _ | n
    · rw [hgs] at hseq
      have hseq' : (processOneEvent st p).state.seq = st.seq := hseq
      rw [List.chain'_cons]
      constructor
      · rw [hseq']; exact optLE_refl st.seq
      · rw [hseq']
        have : (p :: ps).filterMap getSeq = ps.filterMap getSeq := by
          simp [List.filterMap_cons, hgs]
        rw [this] at hchain
        have := ih ((processOneEvent st p).state) hall' (by rw [hseq']; exact hchain)
        rwa [hseq'] at this
    · rw [hgs] at hseq
      have hseq' : (processOneEvent st p).state.seq = some n := hseq
      have hfm : (p :: ps).filterMap getSeq = n :: ps.filterMap getSeq := by
        simp [List.filterMap_cons, hgs]
      rw [hfm] at hchain
      rw [List.chain'_cons]
      constructor
      · rw [hseq']
        rcases hst : st.seq with _ | m
        · simp [optLE]
        · rw [hst] at hchain
          simp only [Option.toList_some, List.cons_append, List.nil_append] at hchain
          exact (List.chain'_cons.mp hchain).1
      · have hch' : List.Chain' (· ≤ ·)
            ((processOneEvent st p).state.seq.toList ++ ps.filterMap getSeq) := by
          rw [hseq']
          rcases hst : st.seq with _ | m
          · rw [hst] at hchain
            simpa using hchain
          · rw [hst] at hchain
            simp only [Option.toList_some, List.cons_append, List.nil_append] at hchain
            simpa using (List.chain'_cons.mp hchain).2
        exact ih ((processOneEvent st p).state) hall' hch'

/-- C2 counterexample: processing the event frames
`\x7bop:0, d:\x7b\x7d, s:69\x7d` then `\x7bop:0, d:\x7b\x7d, s:5\x7d`
stores 69 and then 5 — the stored seq decreased, so it is not
non-decreasing across arbitrary received event frames (the engine
assigns whatever `s` the server provides). -/
theorem c2_seq_monotonic_counterexample :
    (processOneEvent (⟨none, none, []⟩ : SessionState)
        (Json.mkObj [("op", .num 0), ("d", Json.mkObj []), ("s", .num 69)])).state.seq = some 69
    ∧ (processOneEvent
        (processOneEvent (⟨none, none, []⟩ : SessionState)
          (Json.mkObj [("op", .num 0), ("d", Json.mkObj []), ("s", .num 69)])).state
        (Json.mkObj [("op", .num 0), ("d", Json.mkObj []), ("s", .num 5)])).state.seq = some 5
    ∧ ¬ ((69 : Int) ≤ 5) :=
  ⟨rfl, rfl, by decide⟩

/-- C2 (amended): for every event frame processed in the Running state
the stored seq is updated to the frame's `s` field iff `s` is present
and non-null, and left unchanged otherwise; consequently the stored seq
is non-decreasing across any run of received event frames whose present
sequence numbers, taken after the initial stored value, are themselves
non-decreasing (which is what the server guarantees within a session). -/
theorem c2_seq_conditionality (st : SessionState) (p : Json) (ps : List Json)
    (hop : p.lookup "op" = some (.num 0))
    (hall : ∀ q ∈ ps, q.lookup "op" = some (.num 0))
    (hchain : List.Chain' (· ≤ ·) (st.seq.toList ++ ps.filterMap getSeq)) :
    ((∀ n, getSeq p = some n → (processOneEvent st p).state.seq = some n)
      ∧ (getSeq p = none → (processOneEvent st p).state.seq = st.seq))
    ∧ List.Chain' optLE (st.seq :: seqStates st ps) := by
  refine ⟨⟨?_, ?_⟩, seqStates_chain ps st hall hchain⟩
  · intro n hn
    rw [processOneEvent_seq st p hop, hn]
  · intro hn
    rw [processOneEvent_seq st p hop, hn]

/-- C2 witness: the frames of the two seq tests — an update to 69 from
`\x7bop:0, d:\x7b\x7d, s:69\x7d` processed at seq 42, and the
no-`s` frame leaving 123 unchanged, with the run trace of the pair
non-decreasing. -/
theorem c2_seq_conditionality_witness :
    ((processOneEvent (⟨none, some 42, []⟩ : SessionState)
        (Json.mkObj [("op", .num 0), ("d", Json.mkObj []), ("s", .num 69)])).state.seq = some 69)
    ∧ ((processOneEvent (⟨none, some 123, []⟩ : SessionState)
        (Json.mkObj [("op", .num 0), ("d", Json.mkObj [])])).state.seq = some 123)
    ∧ List.Chain' optLE (some 42 ::
        seqStates (⟨none, some 42, []⟩ : SessionState)
          [Json.mkObj [("op", .num 0), ("d", Json.mkObj []), ("s", .num 69)]]) :=
  ⟨((c2_seq_conditionality (⟨none, some 42, []⟩ : SessionState)
      (Json.mkObj [("op", .num 0), ("d", Json.mkObj []), ("s", .num 69)]) [] rfl
      (by intro q hq; cases hq) (by simp)).1.1 69 rfl),
   ((c2_seq_conditionality (⟨none, some 123, []⟩ : SessionState)
      (Json.mkObj [("op", .num 0), ("d", Json.mkObj [])]) [] rfl
      (by intro q hq; cases hq) (by simp)).1.2 rfl),
   ((c2_seq_conditionality (⟨none, some 42, []⟩ : SessionState)
      (Json.mkObj [("op", .num 0), ("d", Json.mkObj [])])
      [Json.mkObj [("op", .num 0), ("d", Json.mkObj []), ("s", .num 69)]] rfl
      (by intro q hq; rw [List.mem_singleton] at hq; subst hq; rfl)
      (by simp [getSeq, Json.lookup, Json.mkObj, JsonFields.ofList, JsonFields.lookup])).2)⟩

/-! ## C6: the send rate limit -/

/-- Appending the next burst completion. -/
theorem burstComps_succ (N W i : Nat) :
    burstComps N W (i + 1) = burstComps N W i ++ [(i / N) * W] := by
  simp [burstComps, List.range_succ]

/-- At time 0 every burst completion still occupies the window. -/
theorem activeAt_burst (N W i : Nat) (hW : 0 < W) :
    activeAt W (burstComps N W i) 0 = burstComps N W i := by
  apply List.filter_eq_self.mpr
  intro c _
  simp only [decide_eq_true_eq]
  omega

/-- There are `i` completions after `i` burst commands. -/
theorem burstComps_length (N W i : Nat) : (burstComps N W i).length = i := by
  simp [burstComps]

/-- One acquire of the burst: command `i` (zero-based) completes at
`(i / N) * W`, suspends exactly when the first N already completed, and
the saturated flag latches on the first suspension. -/
theorem acquireAt_burst (N W : Nat) (hN : 0 < N) (hW : 0 < W) (i : Nat) (sat : Bool) :
    acquireAt ⟨N, W, burstComps N W i, sat⟩ 0
      = (((i / N) * W, decide (N ≤ i)),
         ⟨N, W, burstComps N W (i + 1), sat || decide (N ≤ i)⟩) := by
  by_cases hi : i < N
  · have hd : decide (N ≤ i) = false := by simp; omega
    have hdiv : i / N = 0 := Nat.div_eq_of_lt hi
    simp only [acquireAt, activeAt_burst N W i hW, burstComps_length]
    rw [if_pos hi, hd]
    simp [burstComps_succ, hdiv]
  · push_neg at hi
    have hd : decide (N ≤ i) = true := by simp [hi]
    have hget : (burstComps N W i).reverse.get? (N - 1) = some (((i - N) / N) * W) := by
      have hb : N - 1 < (burstComps N W i).length := by rw [burstComps_length]; omega
      rw [List.get?_eq_getElem?, List.getElem?_reverse hb, burstComps_length]
      have hidx : i - 1 - (N - 1) = i - N := by omega
      rw [hidx, burstComps, List.getElem?_map, List.getElem?_range (by omega : i - N < i)]
      rfl
    have harith : ((i - N) / N) * W + W = (i / N) * W := by
      rw [Nat.div_eq_sub_div hN hi]
      ring
    simp only [acquireAt, activeAt_burst N W i hW, burstComps_length]
    rw [if_neg (by omega), hget, hd]
    simp only [Option.getD_some, harith, burstComps_succ, Bool.or_true]

/-- Running the whole burst: command `j` completes at `(j / N) * W` and
suspends exactly when `N ≤ j`; the completions accumulate as
`burstComps`. -/
theorem acquireSeq_burst (N W : Nat) (hN : 0 < N) (hW : 0 < W) :
    ∀ (k i : Nat) (sat : Bool), ∃ sat' : Bool,
      acquireSeq ⟨N, W, burstComps N W i, sat⟩ (List.replicate k 0)
        = ((List.range' i k).map (fun j => ((j / N) * W, decide (N ≤ j))),
           ⟨N, W, burstComps N W (i + k), sat'⟩) := by
  intro k
  induction k with
  | zero => intro i sat; exact ⟨sat, by simp [acquireSeq]⟩
  | succ k ih =>
    intro i sat
    obtain ⟨sat', h⟩ := ih (i + 1) (sat || decide (N ≤ i))
    refine ⟨sat', ?_⟩
    rw [List.replicate_succ]
    simp only [acquireSeq]
    rw [acquireAt_burst N W hN hW i sat]
    simp only []
    rw [h, List.range'_succ]
    have hik : i + 1 + k = i + (k + 1) := by omega
    rw [hik]
    rfl

/-- The saturated flag after one acquire is the previous flag or-ed
with whether that acquire suspended. -/
theorem acquireAt_saturated (rl : RateLimiter) (t : Nat) :
    (acquireAt rl t).2.saturated = (rl.saturated || (acquireAt rl t).1.2) := by
  simp only [acquireAt]
  split <;> simp

/-- The saturated flag after a run of acquires is set exactly when it
was already set or some acquire of the run suspended. -/
theorem acquireSeq_saturated : ∀ (ts : List Nat) (rl : RateLimiter),
    (acquireSeq rl ts).2.saturated
      = (rl.saturated || (acquireSeq rl ts).1.any (fun r => r.2)) := by
  intro ts
  induction ts with
  | nil => intro rl; simp [acquireSeq]
  | cons t ts ih =>
    intro rl
    simp only [acquireSeq, List.any_cons]
    rw [ih (acquireAt rl t).2, acquireAt_saturated]
    cases rl.saturated <;> cases h2 : (acquireAt rl t).1.2 <;> simp

/-- At most N burst completions fall in any window `[a, a + W)`: the
only completion time inside it is the one multiple of W it contains, and
at most N commands complete there. -/
theorem burstComps_window_count (N W K : Nat) (hN : 0 < N) (hW : 0 < W) (a : Nat) :
    (burstComps N W K).countP (fun c => decide (a ≤ c ∧ c < a + W)) ≤ N := by
  rw [burstComps, List.countP_map, List.countP_eq_length_filter]
  have hsub : ∀ j ∈ (List.range K).filter
      ((fun c => decide (a ≤ c ∧ c < a + W)) ∘ (fun j => (j / N) * W)),
      j ∈ Finset.Ico ((a + W - 1) / W * N) ((a + W - 1) / W * N + N) := by
    intro j hj
    rw [List.mem_filter] at hj
    obtain ⟨-, hq⟩ := hj
    simp only [Function.comp, decide_eq_true_eq] at hq
    obtain ⟨h1, h2⟩ := hq
    have hqm : j / N = (a + W - 1) / W := by
      apply Nat.le_antisymm
      · apply (Nat.le_div_iff_mul_le hW).mpr
        omega
      · have hx : (j / N + 1) * W = (j / N) * W + W := by ring
        have hlt : (a + W - 1) / W < j / N + 1 := by
          apply (Nat.div_lt_iff_lt_mul hW).mpr
          omega
        omega
    have hmod := Nat.div_add_mod j N
    have hmlt := Nat.mod_lt j hN
    have hcomm : N * (j / N) = (j / N) * N := Nat.mul_comm N (j / N)
    rw [Finset.mem_Ico, ← hqm]
    omega
  have hnodup : ((List.range K).filter
      ((fun c => decide (a ≤ c ∧ c < a + W)) ∘ (fun j => (j / N) * W))).Nodup :=
    (List.nodup_range K).filter _
  calc ((List.range K).filter
        ((fun c => decide (a ≤ c ∧ c < a + W)) ∘ (fun j => (j / N) * W))).length
      = ((List.range K).filter
        ((fun c => decide (a ≤ c ∧ c < a + W)) ∘ (fun j => (j / N) * W))).toFinset.card :=
        (List.toFinset_card_of_nodup hnodup).symm
    _ ≤ (Finset.Ico ((a + W - 1) / W * N) ((a + W - 1) / W * N + N)).card :=
        Finset.card_le_card (fun j hj => hsub j (List.mem_toFinset.mp hj))
    _ = N := by rw [Nat.card_Ico]; omega

/-- C6: for a burst of K > N concurrent send_command calls issued
together under a fresh limiter of capacity N per window W, call `j`
completes at time `(j / N) * W` and suspends exactly when `N ≤ j` — so
exactly the first N complete (at time 0) before the first caller
suspends, and the call after them is the first suspension, completing a
window later; the saturated flag ends set; no more than N commands
complete within any sliding window `[a, a + W)`; and a single
send_command under an empty limiter completes at its request time
without suspending. -/
theorem c6_rate_limit (K N W : Nat) (hK : N < K) (hN : 0 < N) (hW : 0 < W) :
    (acquireSeq (freshLimiter N W) (List.replicate K 0)).1
        = (List.range K).map (fun j => ((j / N) * W, decide (N ≤ j)))
    ∧ ((acquireSeq (freshLimiter N W) (List.replicate K 0)).1.take N).all (fun r => !r.2) = true
    ∧ (acquireSeq (freshLimiter N W) (List.replicate K 0)).1.get? N = some (W, true)
    ∧ (acquireSeq (freshLimiter N W) (List.replicate K 0)).2.saturated = true
    ∧ (∀ a : Nat, ((acquireSeq (freshLimiter N W) (List.replicate K 0)).1.map Prod.fst).countP
          (fun c => decide (a ≤ c ∧ c < a + W)) ≤ N)
    ∧ (∀ t : Nat, acquireSeq (freshLimiter N W) [t] = ([(t, false)], ⟨N, W, [t], false⟩)) := by
  obtain ⟨sat', hrun⟩ := acquireSeq_burst N W hN hW K 0 false
  have hres : (acquireSeq (freshLimiter N W) (List.replicate K 0)).1
      = (List.range K).map (fun j => ((j / N) * W, decide (N ≤ j))) := by
    rw [show freshLimiter N W = ⟨N, W, burstComps N W 0, false⟩ from rfl, hrun,
      List.range_eq_range']
  have hget : (acquireSeq (freshLimiter N W) (List.replicate K 0)).1.get? N = some (W, true) := by
    rw [hres, List.get?_eq_getElem?, List.getElem?_map, List.getElem?_range hK]
    simp [Nat.div_self hN, hN.le]
  refine ⟨hres, ?_, hget, ?_, ?_, ?_⟩
  · rw [hres, ← List.map_take, List.take_range, Nat.min_eq_left hK.le]
    rw [List.all_eq_true]
    intro x hx
    rw [List.mem_map] at hx
    obtain ⟨j, hj, hfx⟩ := hx
    rw [List.mem_range] at hj
    rw [← hfx]
    simp
    omega
  · rw [acquireSeq_saturated, show (freshLimiter N W).saturated = false from rfl,
      Bool.false_or, List.any_eq_true]
    exact ⟨(W, true), List.get?_mem hget, rfl⟩
  · intro a
    rw [hres, List.map_map]
    have hcomp : (Prod.fst ∘ fun j => ((j / N) * W, decide (N ≤ j)))
        = fun j => (j / N) * W := rfl
    rw [hcomp]
    exact burstComps_window_count N W K hN hW a
  · intro t
    simp [acquireSeq, acquireAt, activeAt, freshLimiter, hN]

/-- C6 witness: a burst of 3 calls under capacity 2 per window 5 — the
first two complete at once, the third suspends and completes a window
later, the limiter ends saturated. -/
theorem c6_rate_limit_witness :
    (acquireSeq (freshLimiter 2 5) (List.replicate 3 0)).1 = [(0, false), (0, false), (5, true)]
    ∧ (acquireSeq (freshLimiter 2 5) (List.replicate 3 0)).2.saturated = true :=
  ⟨((c6_rate_limit 3 2 5 (by decide) (by decide) (by decide)).1).trans (by rfl),
   (c6_rate_limit 3 2 5 (by decide) (by decide) (by decide)).2.2.2.1⟩

/-- C10 witness: the INVALID_SEQ close code 4007 (the code
`test_run_once_RestartConnection` uses) is reconnectable: the reidentify
catch clears seq, session id and trace, the resume catch preserves
them. -/
theorem c10_run_loop_signal_state_witness :
    handleSignal ⟨some (.num 2), some 1, ["foo"]⟩ (.RestartConnection 4007 "some lazy message")
        = some (⟨none, none, []⟩ : SessionState)
    ∧ handleSignal ⟨some (.num 2), some 1, ["foo"]⟩ (.ResumeConnection 4007 "some lazy message")
        = some ⟨some (.num 2), some 1, ["foo"]⟩ :=
  c10_run_loop_signal_state ⟨some (.num 2), some 1, ["foo"]⟩ 4007 "some lazy message" (by decide)

end Hikari
